import Mathlib

/-!
Verification development for the Oracle-to-Snowflake SQL migration utilities.

The repository contains several near-duplicate implementations of the same
three components, embedded here file by file:

* `CoreLogicV4`    — `core_logic_v4.py`
* `App7New`        — `app7new.py`
* `AppNew1`        — `app_new_1.py`
* `App1UpdatedV3`  — `app1_updated_v3.py`

Each Translator is a fixed sequence of Python `re.sub` calls.  Every rule is
embedded as an explicit left-to-right scan over the character list of the
input, reproducing the semantics of the concrete regular expression it came
from: leftmost matching, word boundaries (`\b`) judged against the original
characters, greedy character classes such as `[^,]+` (which stop at the first
excluded character), greedy `\s*` that can shrink to leave at least one
character for a following one-or-more class, and continuation of the scan
after the end of each replaced match.
-/

/-- Python's `\w`: ASCII letters, digits and underscore (inputs are ASCII). -/
def isWordChar (c : Char) : Bool := c.isAlphanum || c = '_'

/-- Python's `\s`: space, tab, newline, carriage return, vertical tab, form feed. -/
def isSpaceChar (c : Char) : Bool :=
  c = ' ' || c = '\t' || c = '\n' || c = '\r' || c = '\x0b' || c = '\x0c'

/-- Case-insensitive character comparison (`re.IGNORECASE`). -/
def ciEq (a b : Char) : Bool := a.toLower = b.toLower

/-- Does `l` start with the pattern `pat`, case-insensitively? -/
def ciStartsWith : List Char → List Char → Bool
  | [], _ => true
  | _ :: _, [] => false
  | p :: ps, c :: cs => ciEq p c && ciStartsWith ps cs

/-- Length of the maximal leading whitespace run (`\s*`, greedy). -/
def wsCount : List Char → Nat
  | [] => 0
  | c :: cs => if isSpaceChar c then wsCount cs + 1 else 0

/-- Length of the maximal leading digit run (`\d+`, greedy). -/
def digitCount : List Char → Nat
  | [] => 0
  | c :: cs => if c.isDigit then digitCount cs + 1 else 0

/-- Index of the first occurrence of `x`, if any. -/
def findChar (x : Char) : List Char → Option Nat
  | [] => none
  | c :: cs => if c = x then some 0 else (findChar x cs).map (· + 1)

/-- The sublist from index `a` (inclusive) to index `b` (exclusive). -/
def sliceC (l : List Char) (a b : Nat) : List Char := (l.drop a).take (b - a)

/-- `True` iff the next position is a word boundary on the right (`\b`):
either end of text or a non-word character. -/
def boundaryAfter : List Char → Bool
  | [] => true
  | c :: _ => !isWordChar c

/-- One attempted match of a rule at the head of the remaining text.
On success: replacement text, number of original characters consumed
(always positive), and whether the last consumed original character is a
word character (for subsequent `\b` tests). -/
abbrev TryFun := Bool → List Char → Option (List Char × Nat × Bool)

/-- The `re.sub` scan: try a match at every position from the left; on a
match emit the replacement and continue after the matched region, otherwise
copy one character.  `fuel` bounds the number of scan steps; every step
consumes at least one character, so `fuel = length` is always enough. -/
def applySub (t : TryFun) : Nat → Bool → List Char → List Char
  | 0, _, l => l
  | _ + 1, _, [] => []
  | fuel + 1, prevW, c :: rest =>
    match t prevW (c :: rest) with
    | some (repl, len, flag) => repl ++ applySub t fuel flag (List.drop len (c :: rest))
    | none => c :: applySub t fuel (isWordChar c) rest

/-- Run one `re.sub` rule over a string (scan starts at a word boundary). -/
def runSub (t : TryFun) (s : String) : String :=
  String.mk (applySub t s.data.length false s.data)

/-- `re.sub(r'\bSYSDATE\b', 'CURRENT_TIMESTAMP', s, flags=re.IGNORECASE)`. -/
def trySysdate : TryFun := fun prevW l =>
  if !prevW && ciStartsWith "sysdate".data l && boundaryAfter (l.drop 7) then
    some ("CURRENT_TIMESTAMP".data, 7, true)
  else none

/-- Shared shape of `\bNAME\s*\(([^,]+),\s*([^)]+)\)` rewritten to
`PRE\1, \2)`; used by the NVL, two-argument TO_DATE and two-argument
TO_CHAR rules. -/
def try2ArgCall (name pre : List Char) : TryFun := fun prevW l =>
  if !prevW && ciStartsWith name l then
    let w := wsCount (l.drop name.length)
    match l.drop (name.length + w) with
    | '(' :: t =>
      match findChar ',' t with
      | some j1 =>
        if j1 = 0 then none else
        let cap1 := t.take j1
        let t2 := t.drop (j1 + 1)
        match findChar ')' t2 with
        | some j2 =>
          if j2 = 0 then none else
          let k := min (wsCount t2) (j2 - 1)
          let cap2 := sliceC t2 k j2
          some (pre ++ cap1 ++ ", ".data ++ cap2 ++ ")".data,
                name.length + w + 1 + j1 + 1 + j2 + 1, false)
        | none => none
      | none => none
    | _ => none
  else none

/-- `\bNAME\s*\(([^)]+)\)` rewritten to `PRE\1)`; used by the TO_NUMBER rule. -/
def try1ArgCall (name pre : List Char) : TryFun := fun prevW l =>
  if !prevW && ciStartsWith name l then
    let w := wsCount (l.drop name.length)
    match l.drop (name.length + w) with
    | '(' :: t =>
      match findChar ')' t with
      | some j =>
        if j = 0 then none else
        some (pre ++ t.take j ++ ")".data, name.length + w + 1 + j + 1, false)
      | none => none
    | _ => none
  else none

/-- `\bNAME\s*\(\s*([^)]+)\)` rewritten to `\1SUFFIX`; used by the
single-capture TO_DATE and TO_CHAR cast rules of `app_new_1.py` and
`app1_updated_v3.py`. -/
def try1ArgCast (name suffix : List Char) : TryFun := fun prevW l =>
  if !prevW && ciStartsWith name l then
    let w := wsCount (l.drop name.length)
    match l.drop (name.length + w) with
    | '(' :: t =>
      match findChar ')' t with
      | some j =>
        if j = 0 then none else
        let k := min (wsCount t) (j - 1)
        some (sliceC t k j ++ suffix, name.length + w + 1 + j + 1, false)
      | none => none
    | _ => none
  else none

/-- `re.sub(r'\(\+\)', '', s)`: delete every literal `(+)`. -/
def tryPlus : TryFun := fun _ l =>
  match l with
  | '(' :: '+' :: ')' :: _ => some ([], 3, false)
  | _ => none

/-- `re.sub(r'\bROWNUM\s*<=\s*(\d+)', r'LIMIT \1', s, flags=re.IGNORECASE)`. -/
def tryRownum : TryFun := fun prevW l =>
  if !prevW && ciStartsWith "rownum".data l then
    let w1 := wsCount (l.drop 6)
    match l.drop (6 + w1) with
    | '<' :: '=' :: t2 =>
      let w2 := wsCount t2
      let d := digitCount (t2.drop w2)
      if d = 0 then none else
      some ("LIMIT ".data ++ (t2.drop w2).take d, 6 + w1 + 2 + w2 + d, true)
    | _ => none
  else none

/-- Python `'…'.split(',')` on a character list. -/
def splitCommas : List Char → List (List Char)
  | [] => [[]]
  | c :: rest =>
    if c = ',' then [] :: splitCommas rest
    else
      match splitCommas rest with
      | [] => [[c]]
      | p :: ps => (c :: p) :: ps

/-- Drop leading whitespace characters. -/
def dropLeadingWs : List Char → List Char
  | [] => []
  | c :: cs => if isSpaceChar c then dropLeadingWs cs else c :: cs

/-- Python `str.strip()`. -/
def trimC (l : List Char) : List Char :=
  (dropLeadingWs (dropLeadingWs l).reverse).reverse

/-- The loop `for i in range(1, len(args) - 1, 2)` of `decode_to_case`:
emit `WHEN args[i] THEN args[i+1] ` while two arguments remain. -/
def whenPairs : List (List Char) → List Char
  | a :: b :: rest => "WHEN ".data ++ a ++ " THEN ".data ++ b ++ " ".data ++ whenPairs rest
  | _ => []

/-- Python `args[-1]` for the nonempty list `d :: l`. -/
def lastD (d : List Char) : List (List Char) → List Char
  | [] => d
  | [x] => x
  | _ :: x :: xs => lastD d (x :: xs)

namespace CoreLogicV4

/-- The body of `decode_to_case` from `core_logic_v4.py` after the argument
split: fewer than three arguments returns the whole match `group0`
unchanged; otherwise a `CASE` expression is built, with an `ELSE` on
`args[-1]` exactly when the argument count is odd
(`if len(args) % 2 != 0`). -/
def decode_case_of_args (group0 : List Char) (args : List (List Char)) : List Char :=
  match args with
  | [] => group0
  | a0 :: rest =>
    if (a0 :: rest).length < 3 then group0
    else
      "CASE ".data ++ a0 ++ " ".data ++ whenPairs rest ++
        (if (a0 :: rest).length % 2 != 0 then "ELSE ".data ++ lastD a0 rest ++ " ".data else []) ++
        "END".data

/-- `decode_to_case` from `core_logic_v4.py` (the replacement callback of
`re.sub(r'\bDECODE\s*\((.*?)\)', decode_to_case, …)`): `group0` is the whole
matched text, `group1` the captured argument text; the arguments are the
comma-split, stripped pieces of `group1`. -/
def decode_to_case (group0 group1 : List Char) : List Char :=
  decode_case_of_args group0 ((splitCommas group1).map trimC)

/-- `re.sub(r'\bDECODE\s*\((.*?)\)', decode_to_case, s, flags=re.IGNORECASE|re.DOTALL)`:
the lazy group captures up to the first `)` (possibly empty). -/
def tryDecode : TryFun := fun prevW l =>
  if !prevW && ciStartsWith "decode".data l then
    let w := wsCount (l.drop 6)
    match l.drop (6 + w) with
    | '(' :: t =>
      match findChar ')' t with
      | some j =>
        let len := 6 + w + 1 + j + 1
        some (decode_to_case (l.take len) (t.take j), len, false)
      | none => none
    | _ => none
  else none

/-- `re.sub(r'\bSUBSTR\s*\(([^,]+),\s*([^,]+),\s*([^)]+)\)', r'SUBSTRING(\1, \2, \3)', …)`. -/
def trySubstr3 : TryFun := fun prevW l =>
  if !prevW && ciStartsWith "substr".data l then
    let w := wsCount (l.drop 6)
    match l.drop (6 + w) with
    | '(' :: t =>
      match findChar ',' t with
      | some j1 =>
        if j1 = 0 then none else
        let cap1 := t.take j1
        let t2 := t.drop (j1 + 1)
        match findChar ',' t2 with
        | some j2 =>
          if j2 = 0 then none else
          let k2 := min (wsCount t2) (j2 - 1)
          let cap2 := sliceC t2 k2 j2
          let t3 := t2.drop (j2 + 1)
          match findChar ')' t3 with
          | some j3 =>
            if j3 = 0 then none else
            let k3 := min (wsCount t3) (j3 - 1)
            let cap3 := sliceC t3 k3 j3
            some ("SUBSTRING(".data ++ cap1 ++ ", ".data ++ cap2 ++ ", ".data ++ cap3 ++ ")".data,
                  6 + w + 1 + j1 + 1 + j2 + 1 + j3 + 1, false)
          | none => none
        | none => none
      | none => none
    | _ => none
  else none

/-- `convert_oracle_to_snowflake` from `core_logic_v4.py`: the ten `re.sub`
passes in source order. -/
def convert_oracle_to_snowflake (sql_text : String) : String :=
  let s1 := runSub trySysdate sql_text
  let s2 := runSub (try2ArgCall "nvl".data "COALESCE(".data) s1
  let s3 := runSub (try2ArgCall "to_date".data "TO_DATE(".data) s2
  let s4 := runSub (try2ArgCall "to_char".data "TO_VARCHAR(".data) s3
  let s5 := runSub (try1ArgCall "to_number".data "TRY_TO_NUMBER(".data) s4
  let s6 := runSub tryPlus s5
  let s7 := runSub tryRownum s6
  let s8 := runSub tryDecode s7
  let s9 := runSub trySubstr3 s8
  runSub (try2ArgCall "substr".data "SUBSTRING(".data) s9

/-- The same pipeline with the DECODE pass set aside (rules 1, 2 and 4–9 of
the specification), as quantified over by the idempotence property. -/
def convert_without_decode (sql_text : String) : String :=
  let s1 := runSub trySysdate sql_text
  let s2 := runSub (try2ArgCall "nvl".data "COALESCE(".data) s1
  let s3 := runSub (try2ArgCall "to_date".data "TO_DATE(".data) s2
  let s4 := runSub (try2ArgCall "to_char".data "TO_VARCHAR(".data) s3
  let s5 := runSub (try1ArgCall "to_number".data "TRY_TO_NUMBER(".data) s4
  let s6 := runSub tryPlus s5
  let s7 := runSub tryRownum s6
  let s9 := runSub trySubstr3 s7
  runSub (try2ArgCall "substr".data "SUBSTRING(".data) s9

/-- `wrap_sql_in_dbt_model` from `core_logic_v4.py`: always prepends the
config directive, whatever the model type. -/
def wrap_sql_in_dbt_model (sql_text model_type : String) : String :=
  let config := "\x7b\x7b config(materialized='" ++ model_type ++ "') \x7d\x7d"
  config ++ "\n\n" ++ sql_text

end CoreLogicV4

namespace App7New

/-- The body of `decode_to_case` from `app7new.py` after the argument
split: identical to the `core_logic_v4.py` callback except that the `ELSE`
clause is added when the argument count is even (`if len(args) % 2 == 0`). -/
def decode_case_of_args (group0 : List Char) (args : List (List Char)) : List Char :=
  match args with
  | [] => group0
  | a0 :: rest =>
    if (a0 :: rest).length < 3 then group0
    else
      "CASE ".data ++ a0 ++ " ".data ++ whenPairs rest ++
        (if (a0 :: rest).length % 2 == 0 then "ELSE ".data ++ lastD a0 rest ++ " ".data else []) ++
        "END".data

/-- `decode_to_case` from `app7new.py`. -/
def decode_to_case (group0 group1 : List Char) : List Char :=
  decode_case_of_args group0 ((splitCommas group1).map trimC)

/-- `re.sub(r'\bDECODE\s*\(([^)]+)\)', decode_to_case, s, flags=re.IGNORECASE)`:
the group needs at least one character before the first `)`. -/
def tryDecode : TryFun := fun prevW l =>
  if !prevW && ciStartsWith "decode".data l then
    let w := wsCount (l.drop 6)
    match l.drop (6 + w) with
    | '(' :: t =>
      match findChar ')' t with
      | some j =>
        if j = 0 then none else
        let len := 6 + w + 1 + j + 1
        some (decode_to_case (l.take len) (t.take j), len, false)
      | none => none
    | _ => none
  else none

/-- Backtracking tail of `app7new.py`'s merged SUBSTR pattern:
`\s*([^,]+)(?:,\s*([^)]+))?\)` against `t2`, returning the second and third
captures (the third is empty when the optional group does not participate)
and the number of characters consumed.  Candidates are explored in the
regex engine's order: longest `\s*` first, then longest `[^,]+`, the
optional group present before absent. -/
def substrTail (t2 : List Char) : Option (List Char × List Char × Nat) :=
  let wsMax := wsCount t2
  ((List.range (wsMax + 1)).reverse).findSome? fun s =>
    let r := t2.drop s
    let m := r.length - (r.dropWhile (· != ',')).length
    (((List.range m).map (· + 1)).reverse).findSome? fun cap2len =>
      let cap2 := r.take cap2len
      match r.drop cap2len with
      | ',' :: u2 =>
        match findChar ')' u2 with
        | some j =>
          if j = 0 then none else
          let k := min (wsCount u2) (j - 1)
          some (cap2, sliceC u2 k j, s + cap2len + 1 + j + 1)
        | none => none
      | ')' :: _ => some (cap2, [], s + cap2len + 1)
      | _ => none

/-- `re.sub(r'\bSUBSTR\s*\(([^,]+),\s*([^,]+)(?:,\s*([^)]+))?\)',
r'SUBSTRING(\1, \2, \3)', …)` from `app7new.py`. -/
def trySubstr : TryFun := fun prevW l =>
  if !prevW && ciStartsWith "substr".data l then
    let w := wsCount (l.drop 6)
    match l.drop (6 + w) with
    | '(' :: t =>
      match findChar ',' t with
      | some j1 =>
        if j1 = 0 then none else
        let cap1 := t.take j1
        match substrTail (t.drop (j1 + 1)) with
        | some (cap2, cap3, used) =>
          some ("SUBSTRING(".data ++ cap1 ++ ", ".data ++ cap2 ++ ", ".data ++ cap3 ++ ")".data,
                6 + w + 1 + j1 + 1 + used, false)
        | none => none
      | none => none
    | _ => none
  else none

/-- `convert_oracle_to_snowflake` from `app7new.py` (source order: SYSDATE,
NVL, DECODE, TO_DATE, TO_CHAR, TO_NUMBER, SUBSTR, outer-join marker,
ROWNUM). -/
def convert_oracle_to_snowflake (sql_text : String) : String :=
  let s1 := runSub trySysdate sql_text
  let s2 := runSub (try2ArgCall "nvl".data "COALESCE(".data) s1
  let s3 := runSub tryDecode s2
  let s4 := runSub (try2ArgCall "to_date".data "TO_DATE(".data) s3
  let s5 := runSub (try2ArgCall "to_char".data "TO_VARCHAR(".data) s4
  let s6 := runSub (try1ArgCall "to_number".data "TRY_TO_NUMBER(".data) s5
  let s7 := runSub trySubstr s6
  let s8 := runSub tryPlus s7
  runSub tryRownum s8

end App7New

namespace AppNew1

/-- `re.sub(r'\bDECODE\s*\(\s*([^,]+),\s*([^,]+),\s*([^,]+),\s*([^)]+)\)',
r'CASE WHEN \1 = \2 THEN \3 ELSE \4 END', …)` from `app_new_1.py` and
`app1_updated_v3.py`: the exactly-four-argument DECODE rewrite. -/
def tryDecode4 : TryFun := fun prevW l =>
  if !prevW && ciStartsWith "decode".data l then
    let w := wsCount (l.drop 6)
    match l.drop (6 + w) with
    | '(' :: t =>
      match findChar ',' t with
      | some j1 =>
        if j1 = 0 then none else
        let k1 := min (wsCount t) (j1 - 1)
        let cap1 := sliceC t k1 j1
        let t2 := t.drop (j1 + 1)
        match findChar ',' t2 with
        | some j2 =>
          if j2 = 0 then none else
          let k2 := min (wsCount t2) (j2 - 1)
          let cap2 := sliceC t2 k2 j2
          let t3 := t2.drop (j2 + 1)
          match findChar ',' t3 with
          | some j3 =>
            if j3 = 0 then none else
            let k3 := min (wsCount t3) (j3 - 1)
            let cap3 := sliceC t3 k3 j3
            let t4 := t3.drop (j3 + 1)
            match findChar ')' t4 with
            | some j4 =>
              if j4 = 0 then none else
              let k4 := min (wsCount t4) (j4 - 1)
              let cap4 := sliceC t4 k4 j4
              some ("CASE WHEN ".data ++ cap1 ++ " = ".data ++ cap2 ++ " THEN ".data ++
                      cap3 ++ " ELSE ".data ++ cap4 ++ " END".data,
                    6 + w + 1 + j1 + 1 + j2 + 1 + j3 + 1 + j4 + 1, false)
            | none => none
          | none => none
        | none => none
      | none => none
    | _ => none
  else none

/-- `convert_oracle_to_snowflake` from `app_new_1.py` (source order: SYSDATE,
NVL, four-argument DECODE, TO_DATE cast, TO_CHAR cast, outer-join marker,
ROWNUM). -/
def convert_oracle_to_snowflake (sql_text : String) : String :=
  let s1 := runSub trySysdate sql_text
  let s2 := runSub (try2ArgCall "nvl".data "COALESCE(".data) s1
  let s3 := runSub tryDecode4 s2
  let s4 := runSub (try1ArgCast "to_date".data "::DATE".data) s3
  let s5 := runSub (try1ArgCast "to_char".data "::TEXT".data) s4
  let s6 := runSub tryPlus s5
  runSub tryRownum s6

/-- The default of the `unique_key` parameter in the source signature
`def wrap_sql_in_dbt_model(sql_text, model_type, unique_key="id")`. -/
def default_unique_key : String := "id"

/-- `wrap_sql_in_dbt_model` from `app_new_1.py`. -/
def wrap_sql_in_dbt_model (sql_text model_type unique_key : String) : String :=
  if model_type = "view" then
    "\x7b\x7b config(materialized='view') \x7d\x7d\n\n" ++ sql_text
  else if model_type = "table" then
    "\x7b\x7b config(materialized='table') \x7d\x7d\n\n" ++ sql_text
  else if model_type = "incremental" then
    "\x7b\x7b config(materialized='incremental', unique_key='" ++ unique_key ++
      "', tags=['oracle_migration']) \x7d\x7d\n" ++ sql_text ++
      "\n\n\x7b% if is_incremental() %\x7d\n-- Add incremental filter logic here\n\x7b% endif %\x7d"
  else sql_text

end AppNew1

namespace App1UpdatedV3

/-- `convert_oracle_to_snowflake` from `app1_updated_v3.py` with the default
`options` (every flag true).  The SYSDATE line reads
`re.sub(r'\bSYSDATE\b', 'CURRENT_TIMESTAMP', sql_text, flags=re.IGNORECASE)`
without assigning the result back to `sql_text`, so it has no effect on the
returned value; the discarded computation is mirrored here. -/
def convert_oracle_to_snowflake (sql_text : String) : String :=
  let _discarded := runSub trySysdate sql_text
  let s2 := runSub (try2ArgCall "nvl".data "COALESCE(".data) sql_text
  let s3 := runSub AppNew1.tryDecode4 s2
  let s4 := runSub (try1ArgCast "to_date".data "::DATE".data) s3
  let s5 := runSub (try1ArgCast "to_char".data "::TEXT".data) s4
  let s6 := runSub tryPlus s5
  runSub tryRownum s6

/-- `wrap_sql_in_dbt_model` from `app1_updated_v3.py`; it differs from the
`app_new_1.py` one only in the comment lines of the incremental placeholder
block.  Inside the source f-string every doubled brace renders as a single
brace, so the `FROM \x7b\x7b this \x7d\x7d` written in the source produces
`FROM \x7b this \x7d` in the output. -/
def wrap_sql_in_dbt_model (sql_text model_type unique_key : String) : String :=
  if model_type = "view" then
    "\x7b\x7b config(materialized='view') \x7d\x7d\n\n" ++ sql_text
  else if model_type = "table" then
    "\x7b\x7b config(materialized='table') \x7d\x7d\n\n" ++ sql_text
  else if model_type = "incremental" then
    "\x7b\x7b config(materialized='incremental', unique_key='" ++ unique_key ++
      "', tags=['oracle_migration']) \x7d\x7d\n" ++ sql_text ++
      "\n\n\x7b% if is_incremental() %\x7d\n-- Example: Only include new records\n-- WHERE updated_at > (SELECT MAX(updated_at) FROM \x7b this \x7d)\n\x7b% endif %\x7d"
  else sql_text

end App1UpdatedV3

/-- Splitting a character list on a separator character, like Python's
`str.split(sep)`. -/
def splitOnChar (x : Char) : List Char → List (List Char)
  | [] => [[]]
  | c :: rest =>
    if c = x then [] :: splitOnChar x rest
    else
      match splitOnChar x rest with
      | [] => [[c]]
      | p :: ps => (c :: p) :: ps

/-- Python `str.upper()` (ASCII inputs). -/
def pyUpper (s : String) : String := String.mk (s.data.map Char.toUpper)

/-- Modelled from the spec: the third-party `sqlparse` library is not part
of this repository.  Per the specification the Validator determines
"whether it parses as one or more statements"; this model yields no
statements for blank text and otherwise the non-blank `;`-separated
pieces. -/
def sqlparse_statements (s : String) : List String :=
  if trimC s.data = [] then []
  else ((splitOnChar ';' s.data).filter (fun p => trimC p != [])).map String.mk

/-- Modelled from the spec: `sqlparse`'s `Statement.get_type()` classifies a
statement by its leading keyword ("whether every statement's type is within
an allowed set"); unrecognized leading words give `UNKNOWN`. -/
def sqlparse_get_type (stmt : String) : String :=
  let firstWord := (trimC stmt.data).takeWhile (fun c => !isSpaceChar c)
  let up := pyUpper (String.mk firstWord)
  if ["SELECT", "INSERT", "UPDATE", "DELETE", "CREATE", "ALTER", "DROP",
      "TRUNCATE", "GRANT", "REVOKE", "WITH"].contains up
  then up else "UNKNOWN"

namespace CoreLogicV4

/-- The tuple of statement types accepted by `validate_sql` in
`core_logic_v4.py`. -/
def allowed_types : List String :=
  ["SELECT", "INSERT", "UPDATE", "DELETE", "WITH", "CTE"]

/-- The `for statement in parsed:` loop of `validate_sql`: the first
statement whose type is not allowed produces the failure result. -/
def check_statements : List String → Bool × String
  | [] => (true, "SQL syntax looks valid.")
  | st :: rest =>
    let statement_type := sqlparse_get_type st
    if allowed_types.contains (pyUpper statement_type) then check_statements rest
    else (false, "Unsupported SQL statement type: " ++ statement_type ++ ". Only DML is allowed.")

/-- `validate_sql` from `core_logic_v4.py` (`if not sql_text.strip()` is the
blank-input guard). -/
def validate_sql (sql_text : String) : Bool × String :=
  if trimC sql_text.data = [] then (false, "Empty or invalid SQL.")
  else
    let parsed := sqlparse_statements sql_text
    if parsed.length = 0 then (false, "Empty or invalid SQL.")
    else check_statements parsed

end CoreLogicV4

namespace AppNew1

/-- `validate_sql` from `app_new_1.py`: only checks that parsing yields at
least one statement. -/
def validate_sql (sql_text : String) : Bool × String :=
  let parsed := sqlparse_statements sql_text
  if parsed.length = 0 then (false, "Empty or invalid SQL.")
  else (true, "SQL syntax looks valid.")

end AppNew1

/-! ### Pairwise presentation of DECODE argument lists

To state the DECODE rewrite in the claim's vocabulary (WHEN/THEN pairs
consumed two at a time after the search expression), argument lists are
presented as a search expression followed by a list of pairs, possibly with
one dangling argument. -/

/-- Flatten a list of WHEN/THEN pairs into a flat argument list. -/
def flatPairs : List (List Char × List Char) → List (List Char)
  | [] => []
  | (a, b) :: r => a :: b :: flatPairs r

/-- The WHEN/THEN text of a list of pairs, as the claim describes it. -/
def whenOfPairs : List (List Char × List Char) → List Char
  | [] => []
  | (a, b) :: r => "WHEN ".data ++ a ++ " THEN ".data ++ b ++ " ".data ++ whenOfPairs r

theorem flatPairs_length (l : List (List Char × List Char)) :
    (flatPairs l).length = 2 * l.length := by
  induction l with
  | nil => rfl
  | cons p r ih => simp [flatPairs, ih]; ring

theorem whenPairs_flatPairs (l : List (List Char × List Char)) :
    whenPairs (flatPairs l) = whenOfPairs l := by
  induction l with
  | nil => rfl
  | cons p r ih => simp [flatPairs, whenPairs, whenOfPairs, ih]

theorem whenPairs_flatPairs_dangling (l : List (List Char × List Char)) (x : List Char) :
    whenPairs (flatPairs l ++ [x]) = whenOfPairs l := by
  induction l with
  | nil => rfl
  | cons p r ih => simp [flatPairs, whenPairs, whenOfPairs, ih]

theorem lastD_cons (d a : List Char) (x : List Char) (xs : List (List Char)) :
    lastD d (a :: x :: xs) = lastD d (x :: xs) := rfl

theorem lastD_append_single (d x : List Char) (l : List (List Char)) :
    lastD d (l ++ [x]) = x := by
  induction l generalizing d with
  | nil => rfl
  | cons a r ih =>
    cases r with
    | nil => rfl
    | cons b rs => simpa [List.cons_append, lastD_cons] using ih d

theorem flatPairs_append (a b : List (List Char × List Char)) :
    flatPairs (a ++ b) = flatPairs a ++ flatPairs b := by
  induction a with
  | nil => rfl
  | cons p r ih => simp [flatPairs, ih]

theorem lastD_flatPairs (d : List Char) (ps : List (List Char × List Char))
    (p : List Char × List Char) :
    lastD d (flatPairs (ps ++ [p])) = p.2 := by
  have h : flatPairs ps ++ flatPairs [p] = (flatPairs ps ++ [p.1]) ++ [p.2] := by
    simp [flatPairs]
  rw [flatPairs_append, h]
  exact lastD_append_single d p.2 _


/-- Claim C2 (corrected).  At a DECODE call site whose comma-split argument
list is `args` (`n = args.length`): both `decode_to_case` variants leave the
site unchanged when `n < 3` and otherwise emit `CASE args[0]` followed by
the WHEN/THEN pairs `(args[i], args[i+1])` for `i = 1, 3, …` while two
arguments remain.  In `core_logic_v4.py` an `ELSE args[n-1]` is appended
exactly when `n` is odd — but then `args[n-1]` is also the THEN of the last
pair, not an unpaired argument, and when `n` is even the dangling last
argument is dropped without an ELSE.  In `app7new.py` the ELSE is appended
exactly when `n` is even, consuming the dangling argument. -/
theorem C2_decode_characterization :
    (∀ g0 g1 : List Char, ((splitCommas g1).map trimC).length < 3 →
      CoreLogicV4.decode_to_case g0 g1 = g0) ∧
    (∀ g0 g1 : List Char, ((splitCommas g1).map trimC).length < 3 →
      App7New.decode_to_case g0 g1 = g0) ∧
    (∀ (g0 e : List Char) (ps : List (List Char × List Char)) (p : List Char × List Char),
      CoreLogicV4.decode_case_of_args g0 (e :: flatPairs (ps ++ [p])) =
        "CASE ".data ++ e ++ " ".data ++ whenOfPairs (ps ++ [p]) ++
          "ELSE ".data ++ p.2 ++ " ".data ++ "END".data) ∧
    (∀ (g0 e x : List Char) (ps : List (List Char × List Char)) (p : List Char × List Char),
      CoreLogicV4.decode_case_of_args g0 (e :: (flatPairs (ps ++ [p]) ++ [x])) =
        "CASE ".data ++ e ++ " ".data ++ whenOfPairs (ps ++ [p]) ++ "END".data) ∧
    (∀ (g0 e : List Char) (ps : List (List Char × List Char)) (p : List Char × List Char),
      App7New.decode_case_of_args g0 (e :: flatPairs (ps ++ [p])) =
        "CASE ".data ++ e ++ " ".data ++ whenOfPairs (ps ++ [p]) ++ "END".data) ∧
    (∀ (g0 e x : List Char) (ps : List (List Char × List Char)) (p : List Char × List Char),
      App7New.decode_case_of_args g0 (e :: (flatPairs (ps ++ [p]) ++ [x])) =
        "CASE ".data ++ e ++ " ".data ++ whenOfPairs (ps ++ [p]) ++
          "ELSE ".data ++ x ++ " ".data ++ "END".data) := by
  refine ⟨?_, ?_, ?_, ?_, ?_, ?_⟩
  · intro g0 g1 h
    rcases hA : (splitCommas g1).map trimC with _ | ⟨a0, rest⟩
    · simp only [CoreLogicV4.decode_to_case, hA, CoreLogicV4.decode_case_of_args]
    · rw [hA] at h
      simp only [CoreLogicV4.decode_to_case, hA, CoreLogicV4.decode_case_of_args]
      rw [if_pos h]
  · intro g0 g1 h
    rcases hA : (splitCommas g1).map trimC with _ | ⟨a0, rest⟩
    · simp only [App7New.decode_to_case, hA, App7New.decode_case_of_args]
    · rw [hA] at h
      simp only [App7New.decode_to_case, hA, App7New.decode_case_of_args]
      rw [if_pos h]
  · intro g0 e ps p
    have hlen : (flatPairs (ps ++ [p])).length = 2 * ps.length + 2 := by
      simp [flatPairs_length]; ring
    have hlt : ¬ ((flatPairs (ps ++ [p])).length + 1 < 3) := by rw [hlen]; omega
    have hmod : ((flatPairs (ps ++ [p])).length + 1) % 2 = 1 := by rw [hlen]; omega
    simp [CoreLogicV4.decode_case_of_args, hlt, hmod, whenPairs_flatPairs,
      lastD_flatPairs, List.append_assoc]
  · intro g0 e x ps p
    have hlen : (flatPairs (ps ++ [p])).length = 2 * ps.length + 2 := by
      simp [flatPairs_length]; ring
    have hlt : ¬ ((flatPairs (ps ++ [p])).length + 1 + 1 < 3) := by rw [hlen]; omega
    have hmod : ((flatPairs (ps ++ [p])).length + 1 + 1) % 2 = 0 := by rw [hlen]; omega
    simp [CoreLogicV4.decode_case_of_args, hlt, hmod, whenPairs_flatPairs_dangling,
      List.append_assoc]
  · intro g0 e ps p
    have hlen : (flatPairs (ps ++ [p])).length = 2 * ps.length + 2 := by
      simp [flatPairs_length]; ring
    have hlt : ¬ ((flatPairs (ps ++ [p])).length + 1 < 3) := by rw [hlen]; omega
    have hmod : ((flatPairs (ps ++ [p])).length + 1) % 2 = 1 := by rw [hlen]; omega
    simp [App7New.decode_case_of_args, hlt, hmod, whenPairs_flatPairs,
      List.append_assoc]
  · intro g0 e x ps p
    have hlen : (flatPairs (ps ++ [p])).length = 2 * ps.length + 2 := by
      simp [flatPairs_length]; ring
    have hlt : ¬ ((flatPairs (ps ++ [p])).length + 1 + 1 < 3) := by rw [hlen]; omega
    have hmod : ((flatPairs (ps ++ [p])).length + 1 + 1) % 2 = 0 := by rw [hlen]; omega
    simp [App7New.decode_case_of_args, hlt, hmod, whenPairs_flatPairs_dangling,
      lastD_append_single, List.append_assoc]

/-- Claim C2 counterexample: the claim predicts no ELSE branch for an even
total argument count, but the `app7new.py` Translator emits
`ELSE 'C'` for the six-argument call `DECODE(x, 1, 'A', 2, 'B', 'C')`. -/
theorem C2_counterexample :
    App7New.convert_oracle_to_snowflake "DECODE(x, 1, 'A', 2, 'B', 'C')" ≠
      "CASE x WHEN 1 THEN 'A' WHEN 2 THEN 'B' END" := by decide

/-- Witness for C2: the fewer-than-three-arguments clause evaluated on the
concrete call site `DECODE(a, b)`. -/
theorem C2_witness :
    ((splitCommas "a, b".data).map trimC).length < 3 ∧
    CoreLogicV4.decode_to_case "DECODE(a, b)".data "a, b".data = "DECODE(a, b)".data :=
  ⟨by decide, C2_decode_characterization.1 "DECODE(a, b)".data "a, b".data (by decide)⟩

/-- Claim C1 counterexample: on `DECODE(x, 1, 'A', 2, 'B', 'C')` the
`core_logic_v4.py` Translator does not produce
`CASE x WHEN 1 THEN 'A' WHEN 2 THEN 'B' ELSE 'C' END` (it drops the
default `'C'`). -/
theorem C1_counterexample :
    CoreLogicV4.convert_oracle_to_snowflake "DECODE(x, 1, 'A', 2, 'B', 'C')" ≠
      "CASE x WHEN 1 THEN 'A' WHEN 2 THEN 'B' ELSE 'C' END" := by decide

/-- Claim C1 (corrected).  The claimed translations hold for the
`app7new.py` Translator; the `core_logic_v4.py` Translator instead drops the
default on the six-argument call and duplicates the last result as the ELSE
of the five-argument call. -/
theorem C1_decode_translations :
    App7New.convert_oracle_to_snowflake "DECODE(x, 1, 'A', 2, 'B', 'C')" =
      "CASE x WHEN 1 THEN 'A' WHEN 2 THEN 'B' ELSE 'C' END" ∧
    App7New.convert_oracle_to_snowflake "DECODE(x, 1, 'A', 2, 'B')" =
      "CASE x WHEN 1 THEN 'A' WHEN 2 THEN 'B' END" ∧
    CoreLogicV4.convert_oracle_to_snowflake "DECODE(x, 1, 'A', 2, 'B', 'C')" =
      "CASE x WHEN 1 THEN 'A' WHEN 2 THEN 'B' END" ∧
    CoreLogicV4.convert_oracle_to_snowflake "DECODE(x, 1, 'A', 2, 'B')" =
      "CASE x WHEN 1 THEN 'A' WHEN 2 THEN 'B' ELSE 'B' END" :=
  ⟨by decide, by decide, by decide, by decide⟩

/-- Claim C3 (code bug).  In `app1_updated_v3.py` the result of the SYSDATE
`re.sub` is discarded (the line reads `re.sub(…)` without assigning back to
`sql_text`), so the whole-word token `SYSDATE` survives translation
unchanged; the sibling `app_new_1.py` Translator shows the intended
behaviour on the same input. -/
theorem C3_sysdate_rule_discarded :
    App1UpdatedV3.convert_oracle_to_snowflake "SELECT SYSDATE FROM dual" =
      "SELECT SYSDATE FROM dual" ∧
    AppNew1.convert_oracle_to_snowflake "SELECT SYSDATE FROM dual" =
      "SELECT CURRENT_TIMESTAMP FROM dual" :=
  ⟨by decide, by decide⟩

/-- Claim C4 counterexample: `app_new_1.py` does not preserve the
two-argument form (its single-capture rule swallows the comma), and
`core_logic_v4.py` does not cast the one-argument form. -/
theorem C4_counterexample :
    AppNew1.convert_oracle_to_snowflake "TO_DATE(d, 'YYYY')" ≠ "TO_DATE(d, 'YYYY')" ∧
    CoreLogicV4.convert_oracle_to_snowflake "TO_DATE(d)" ≠ "d::DATE" :=
  ⟨by decide, by decide⟩

/-- Claim C4 (corrected).  `core_logic_v4.py` rewrites only the two-argument
`TO_DATE(a, fmt)` (to itself, arguments preserved) and leaves one-argument
`TO_DATE(a)` unchanged; `app_new_1.py` rewrites everything up to the first
closing parenthesis to a `::DATE` cast, so the one-argument form becomes
`a::DATE` but the two-argument form becomes `a, fmt::DATE`. -/
theorem C4_to_date_behavior :
    CoreLogicV4.convert_oracle_to_snowflake "TO_DATE(d, 'YYYY')" = "TO_DATE(d, 'YYYY')" ∧
    CoreLogicV4.convert_oracle_to_snowflake "TO_DATE(d)" = "TO_DATE(d)" ∧
    AppNew1.convert_oracle_to_snowflake "TO_DATE(d)" = "d::DATE" ∧
    AppNew1.convert_oracle_to_snowflake "TO_DATE(d, 'YYYY')" = "d, 'YYYY'::DATE" :=
  ⟨by decide, by decide, by decide, by decide⟩

/-- Claim C8 counterexample: with the DECODE rule set aside, the
`core_logic_v4.py` Translator is not idempotent — deleting the outer-join
marker in `SYS(+)DATE` creates a fresh `SYSDATE` token, which only a second
application rewrites. -/
theorem C8_counterexample :
    CoreLogicV4.convert_without_decode (CoreLogicV4.convert_without_decode "SYS(+)DATE") ≠
      CoreLogicV4.convert_without_decode "SYS(+)DATE" := by decide

/-- Claim C8 (corrected).  Applying the DECODE-free Translator twice is not
always a no-op: a source token can survive inside a capture group (a nested
NVL call is unwrapped one level per application), the outer-join-marker
deletion can splice a new source token together (`SYS(+)DATE` → `SYSDATE` →
`CURRENT_TIMESTAMP`), and that deletion is not even idempotent by itself
(`((+)+)` → `(+)` → empty). -/
theorem C8_not_idempotent :
    CoreLogicV4.convert_without_decode "NVL(a, NVL(b, c))" = "COALESCE(a, NVL(b, c))" ∧
    CoreLogicV4.convert_without_decode "COALESCE(a, NVL(b, c))" = "COALESCE(a, COALESCE(b, c))" ∧
    CoreLogicV4.convert_without_decode "SYS(+)DATE" = "SYSDATE" ∧
    CoreLogicV4.convert_without_decode "SYSDATE" = "CURRENT_TIMESTAMP" ∧
    CoreLogicV4.convert_without_decode "((+)+)" = "(+)" ∧
    CoreLogicV4.convert_without_decode "(+)" = "" :=
  ⟨by decide, by decide, by decide, by decide, by decide, by decide⟩

/-- Claim C10 (confirmed).  The Translator's matching is purely textual:
the SYSDATE rule fires inside a quoted string literal, the outer-join
marker is deleted inside a string literal, and the NVL rule fires inside a
SQL comment. -/
theorem C10_textual_matching :
    CoreLogicV4.convert_oracle_to_snowflake "SELECT 'SYSDATE' FROM t" =
      "SELECT 'CURRENT_TIMESTAMP' FROM t" ∧
    CoreLogicV4.convert_oracle_to_snowflake "SELECT '(+)' AS m FROM t" =
      "SELECT '' AS m FROM t" ∧
    CoreLogicV4.convert_oracle_to_snowflake "-- NVL(a, b)" = "-- COALESCE(a, b)" :=
  ⟨by decide, by decide, by decide⟩

/-- Claim C5 (confirmed).  For every SQL text, the incremental Wrapper with
the default unique key `"id"` produces exactly the configuration directive
carrying `unique_key='id'` and `tags=['oracle_migration']`, then the SQL
text, then the commented-out `\x7b% if is_incremental() %\x7d … \x7b% endif %\x7d`
placeholder block; the leading-directive and trailing-block facts are
spelled out on the literal pieces. -/
theorem C5_incremental_wrapper :
    (∀ sql : String,
      AppNew1.wrap_sql_in_dbt_model sql "incremental" AppNew1.default_unique_key =
        "\x7b\x7b config(materialized='incremental', unique_key='id', tags=['oracle_migration']) \x7d\x7d\n"
          ++ sql ++
          "\n\n\x7b% if is_incremental() %\x7d\n-- Add incremental filter logic here\n\x7b% endif %\x7d") ∧
    (∀ sql : String,
      App1UpdatedV3.wrap_sql_in_dbt_model sql "incremental" "id" =
        "\x7b\x7b config(materialized='incremental', unique_key='id', tags=['oracle_migration']) \x7d\x7d\n"
          ++ sql ++
          "\n\n\x7b% if is_incremental() %\x7d\n-- Example: Only include new records\n-- WHERE updated_at > (SELECT MAX(updated_at) FROM \x7b this \x7d)\n\x7b% endif %\x7d") ∧
    AppNew1.default_unique_key = "id" ∧
    (∃ u v : String,
      "\x7b\x7b config(materialized='incremental', unique_key='id', tags=['oracle_migration']) \x7d\x7d\n" =
        u ++ "unique_key='id'" ++ v) ∧
    (∃ u v : String,
      "\x7b\x7b config(materialized='incremental', unique_key='id', tags=['oracle_migration']) \x7d\x7d\n" =
        u ++ "tags=['oracle_migration']" ++ v) ∧
    (∃ u : String,
      "\n\n\x7b% if is_incremental() %\x7d\n-- Add incremental filter logic here\n\x7b% endif %\x7d" =
        u ++ "\x7b% endif %\x7d") :=
  ⟨fun _ => rfl, fun _ => rfl, rfl,
    ⟨"\x7b\x7b config(materialized='incremental', ", ", tags=['oracle_migration']) \x7d\x7d\n", rfl⟩,
    ⟨"\x7b\x7b config(materialized='incremental', unique_key='id', ", ") \x7d\x7d\n", rfl⟩,
    ⟨"\n\n\x7b% if is_incremental() %\x7d\n-- Add incremental filter logic here\n", rfl⟩⟩

/-- Claim C6 (confirmed).  For the kinds `view` and `table` every Wrapper
variant emits exactly the one-line configuration directive for that kind, a
blank line, and the SQL text unchanged; in particular on `SELECT 1` with
kind `view`. -/
theorem C6_view_table_wrapper :
    (∀ sql uk : String,
      AppNew1.wrap_sql_in_dbt_model sql "view" uk =
        "\x7b\x7b config(materialized='view') \x7d\x7d\n\n" ++ sql ∧
      AppNew1.wrap_sql_in_dbt_model sql "table" uk =
        "\x7b\x7b config(materialized='table') \x7d\x7d\n\n" ++ sql ∧
      App1UpdatedV3.wrap_sql_in_dbt_model sql "view" uk =
        "\x7b\x7b config(materialized='view') \x7d\x7d\n\n" ++ sql ∧
      App1UpdatedV3.wrap_sql_in_dbt_model sql "table" uk =
        "\x7b\x7b config(materialized='table') \x7d\x7d\n\n" ++ sql ∧
      CoreLogicV4.wrap_sql_in_dbt_model sql "view" =
        "\x7b\x7b config(materialized='view') \x7d\x7d\n\n" ++ sql ∧
      CoreLogicV4.wrap_sql_in_dbt_model sql "table" =
        "\x7b\x7b config(materialized='table') \x7d\x7d\n\n" ++ sql) ∧
    AppNew1.wrap_sql_in_dbt_model "SELECT 1" "view" AppNew1.default_unique_key =
      "\x7b\x7b config(materialized='view') \x7d\x7d\n\nSELECT 1" :=
  ⟨fun _ _ => ⟨rfl, rfl, rfl, rfl, rfl, rfl⟩, rfl⟩

/-- Claim C7 counterexample: the `core_logic_v4.py` Wrapper does not return
the SQL unchanged for a kind outside `\x7bview, table, incremental\x7d` — it
prepends a directive for every kind value. -/
theorem C7_counterexample :
    CoreLogicV4.wrap_sql_in_dbt_model "SELECT 1" "ephemeral" ≠ "SELECT 1" := by decide

/-- Claim C7 (corrected).  The `app_new_1.py` and `app1_updated_v3.py`
Wrappers return the SQL text unchanged for every materialization kind
outside `\x7bview, table, incremental\x7d`; the `core_logic_v4.py` Wrapper
instead prepends the configuration directive whatever the kind value is. -/
theorem C7_other_kinds :
    (∀ sql mt uk : String, mt ≠ "view" → mt ≠ "table" → mt ≠ "incremental" →
      AppNew1.wrap_sql_in_dbt_model sql mt uk = sql ∧
      App1UpdatedV3.wrap_sql_in_dbt_model sql mt uk = sql) ∧
    (∀ sql mt : String,
      CoreLogicV4.wrap_sql_in_dbt_model sql mt =
        "\x7b\x7b config(materialized='" ++ mt ++ "') \x7d\x7d\n\n" ++ sql) := by
  constructor
  · intro sql mt uk h1 h2 h3
    constructor
    · simp [AppNew1.wrap_sql_in_dbt_model, h1, h2, h3]
    · simp [App1UpdatedV3.wrap_sql_in_dbt_model, h1, h2, h3]
  · intro sql mt
    simp [CoreLogicV4.wrap_sql_in_dbt_model, String.append_assoc]

/-- Witness for C7: the pass-through clause evaluated at the concrete kind
`ephemeral`. -/
theorem C7_witness :
    AppNew1.wrap_sql_in_dbt_model "SELECT 1" "ephemeral" "id" = "SELECT 1" ∧
    App1UpdatedV3.wrap_sql_in_dbt_model "SELECT 1" "ephemeral" "id" = "SELECT 1" :=
  C7_other_kinds.1 "SELECT 1" "ephemeral" "id" (by decide) (by decide) (by decide)

theorem check_statements_all_allowed (l : List String) :
    (CoreLogicV4.check_statements l).1 = true →
    ∀ st ∈ l, pyUpper (sqlparse_get_type st) ∈ CoreLogicV4.allowed_types := by
  induction l with
  | nil => intro _ st hst; cases hst
  | cons a r ih =>
    intro h st hst
    by_cases hc : pyUpper (sqlparse_get_type a) ∈ CoreLogicV4.allowed_types
    · cases hst with
      | head => exact hc
      | tail _ h' =>
        refine ih ?_ st h'
        simpa [CoreLogicV4.check_statements, hc] using h
    · exfalso
      simp [CoreLogicV4.check_statements, hc] at h

/-- Claim C9 counterexample: the `app_new_1.py` Validator accepts the
DDL-only input `CREATE TABLE t (id INT)` (validity true), contradicting the
claimed rejection. -/
theorem C9_counterexample :
    (AppNew1.validate_sql "CREATE TABLE t (id INT)").1 = true := by decide

/-- Claim C9 (corrected).  The `core_logic_v4.py` Validator rejects empty
and whitespace-only input and DDL-only input with non-empty messages and
reports validity only when every parsed statement's type lies in its
allowed set; the `app_new_1.py` Validator merely checks that parsing yields
at least one statement and in particular accepts `CREATE TABLE t (id INT)`.
The `sqlparse` library is modelled from the spec. -/
theorem C9_validator_behavior :
    CoreLogicV4.validate_sql "" = (false, "Empty or invalid SQL.") ∧
    CoreLogicV4.validate_sql "   " = (false, "Empty or invalid SQL.") ∧
    CoreLogicV4.validate_sql "CREATE TABLE t (id INT)" =
      (false, "Unsupported SQL statement type: CREATE. Only DML is allowed.") ∧
    (∀ s : String, (CoreLogicV4.validate_sql s).1 = true →
      ∀ st ∈ sqlparse_statements s,
        pyUpper (sqlparse_get_type st) ∈ CoreLogicV4.allowed_types) ∧
    AppNew1.validate_sql "CREATE TABLE t (id INT)" = (true, "SQL syntax looks valid.") := by
  refine ⟨by decide, by decide, by decide, ?_, by decide⟩
  intro s h st hst
  unfold CoreLogicV4.validate_sql at h
  by_cases he : trimC s.data = []
  · rw [if_pos he] at h
    cases h
  · rw [if_neg he] at h
    by_cases hp : (sqlparse_statements s).length = 0
    · rw [if_pos hp] at h
      cases h
    · rw [if_neg hp] at h
      exact check_statements_all_allowed _ h st hst

/-- Witness for C9: the all-statements-allowed clause applied at the
concrete accepted input `SELECT 1`. -/
theorem C9_witness :
    pyUpper (sqlparse_get_type "SELECT 1") ∈ CoreLogicV4.allowed_types :=
  C9_validator_behavior.2.2.2.1 "SELECT 1" (by decide) "SELECT 1" (by decide)
